import Mathlib

/-!
Verification of the mock market-data generator of the currency-converter
widget (src/src/App.js).

The JavaScript numerics are idealised over ℚ.  Math.random() is modelled
as an explicit stream of draws u : ℕ → ℚ, one entry per call in call
order: u 0 is the draw for baseRate, u (j + 1) the draw of loop iteration
j (0-based).  The transcendental Math.sin (i * 0.1) is kept abstract as a
parameter osc : ℤ → ℚ; every statement below is either independent of it
or parametric in it.  Calendar dates are modelled as integer day numbers
(days since an arbitrary epoch), which captures the day-granularity ISO
dates the generator produces.
-/

namespace CurrencyConverter

/-- Decimal rounding to a given number of places, the idealisation of
parseFloat(x.toFixed(digits)) over ℚ (round half up). -/
def toFixed (digits : ℕ) (x : ℚ) : ℚ :=
  ((round (x * 10 ^ digits) : ℤ) : ℚ) / 10 ^ digits

/-- One synthetic observation pushed by generateMockHistoricalData
(App.js lines 44-51).  The presentation-only displayDate label is not
modelled; date is the day number of the ISO date string. -/
structure RatePoint where
  date : ℤ
  rate : ℚ
  deriving DecidableEq, Repr, Inhabited

/-- Result record of calculateTrend (App.js lines 102-113): trend is the
direction string, percentage the absolute percentage change, with
toFixed(2) idealised as decimal rounding. -/
structure TrendResult where
  trend : String
  percentage : ℚ
  deriving DecidableEq, Repr

/-- Embedding of generateMockHistoricalData (App.js lines 31-54):

```js
const data = [];
const baseRate = 0.85 + Math.random() * 0.3;
for (let i = days; i >= 0; i--) {
  const fluctuation = (Math.sin(i * 0.1) + Math.random() - 0.5) * 0.05;
  const rate = Math.max(0.1, baseRate + fluctuation);
  data.push({ date: (today minus i days), rate: parseFloat(rate.toFixed(4)) });
}
return data;
```

The loop runs over i = days, days - 1, ..., 0, i.e. iteration j (0-based)
uses i = days - j; it runs zero times when days < 0. -/
def generateMockHistoricalData (u : ℕ → ℚ) (osc : ℤ → ℚ) (today : ℤ)
    (days : ℤ) : List RatePoint :=
  let baseRate : ℚ := 85 / 100 + u 0 * (3 / 10)
  if days < 0 then []
  else
    (List.range (days.toNat + 1)).map (fun (j : ℕ) =>
      let i : ℤ := days - j
      let fluctuation : ℚ := (osc i + u (j + 1) - 1 / 2) * (5 / 100)
      let rate : ℚ := max (1 / 10) (baseRate + fluctuation)
      { date := today - i, rate := toFixed 4 rate })

/-- Embedding of the mock current rate drawn by fetchExchangeRate
(App.js line 64): const mockRate = 0.5 + Math.random() * 1.5, with v the
draw. -/
def mockRate (v : ℚ) : ℚ := 1 / 2 + v * (3 / 2)

/-- Embedding of the converted-amount computation (App.js lines 66 and
89): setConvertedAmount(amount * mockRate) resp. amount * exchangeRate. -/
def convertedAmount (amount rate : ℚ) : ℚ := amount * rate

/-- Embedding of calculateTrend (App.js lines 102-113).  The accesses
historicalData[len - 1] and historicalData[len - 2] are modelled with
List.getD; the guard on length < 2 makes the default irrelevant. -/
def calculateTrend (historicalData : List RatePoint) : TrendResult :=
  if historicalData.length < 2 then { trend := "neutral", percentage := 0 }
  else
    let latest : ℚ := (historicalData.getD (historicalData.length - 1) default).rate
    let previous : ℚ := (historicalData.getD (historicalData.length - 2) default).rate
    let change : ℚ := (latest - previous) / previous * 100
    { trend := if change > 0 then "up" else if change < 0 then "down" else "neutral",
      percentage := toFixed 2 |change| }

/-- State of the CurrencyConverter component that handleSwapCurrencies
can observe (App.js lines 6-14). -/
structure ConversionState where
  amount : ℚ
  fromCurrency : String
  toCurrency : String
  exchangeRate : ℚ
  convertedAmount : ℚ
  chartPeriod : String
  deriving DecidableEq, Repr

/-- Embedding of handleSwapCurrencies (App.js lines 93-96): both setters
read the pre-click closure values, so the pair is genuinely exchanged. -/
def handleSwapCurrencies (s : ConversionState) : ConversionState :=
  { s with fromCurrency := s.toCurrency, toCurrency := s.fromCurrency }

/-- Window selection of loadHistoricalData (App.js line 77):
chartPeriod === '7d' ? 7 : chartPeriod === '30d' ? 30 : 90. -/
def loadHistoricalDataDays (chartPeriod : String) : ℤ :=
  if chartPeriod = "7d" then 7 else if chartPeriod = "30d" then 30 else 90

/-- Embedding of loadHistoricalData (App.js lines 76-80). -/
def loadHistoricalData (u : ℕ → ℚ) (osc : ℤ → ℚ) (today : ℤ)
    (chartPeriod : String) : List RatePoint :=
  generateMockHistoricalData u osc today (loadHistoricalDataDays chartPeriod)

/-- Per-point rate formula exactly as the spec words it: combine the
oscillation term with a fresh draw minus 0.5, scale by 0.05, add the
base rate, clamp to a floor of 0.1, round to 4 decimal places.  Stated
separately from the embedding so that the refinement theorem for C2
compares the two. -/
def specPointRate (baseRate oscillation draw : ℚ) : ℚ :=
  toFixed 4 (max (1 / 10) (baseRate + (oscillation + draw - 1 / 2) * (5 / 100)))

/-! ### Helper lemmas -/

lemma generateMockHistoricalData_eq_map (u : ℕ → ℚ) (osc : ℤ → ℚ) (today days : ℤ)
    (h : 0 ≤ days) :
    generateMockHistoricalData u osc today days =
      (List.range (days.toNat + 1)).map (fun (j : ℕ) =>
        { date := today - (days - j),
          rate := toFixed 4 (max (1 / 10)
            (85 / 100 + u 0 * (3 / 10)
              + (osc (days - j) + u (j + 1) - 1 / 2) * (5 / 100))) }) := by
  simp only [generateMockHistoricalData, if_neg (not_lt.mpr h)]

lemma generateMockHistoricalData_length (u : ℕ → ℚ) (osc : ℤ → ℚ) (today days : ℤ)
    (h : 0 ≤ days) :
    (generateMockHistoricalData u osc today days).length = days.toNat + 1 := by
  rw [generateMockHistoricalData_eq_map u osc today days h]
  simp

lemma generateMockHistoricalData_get (u : ℕ → ℚ) (osc : ℤ → ℚ) (today days : ℤ)
    (h : 0 ≤ days) (j : ℕ)
    (hj : j < (generateMockHistoricalData u osc today days).length) :
    (generateMockHistoricalData u osc today days).get ⟨j, hj⟩ =
      { date := today - (days - j),
        rate := toFixed 4 (max (1 / 10)
          (85 / 100 + u 0 * (3 / 10)
            + (osc (days - j) + u (j + 1) - 1 / 2) * (5 / 100))) } := by
  have e := generateMockHistoricalData_eq_map u osc today days h
  rw [List.get_eq_getElem]
  simp only [e, List.getElem_map, List.getElem_range]

lemma one_tenth_le_toFixed4_max (x : ℚ) : 1 / 10 ≤ toFixed 4 (max (1 / 10) x) := by
  unfold toFixed
  have h2 : (1000 : ℤ) ≤ round (max (1 / 10) x * 10 ^ 4) := by
    rw [round_eq, Int.le_floor]
    push_cast
    nlinarith [le_max_left (1 / 10 : ℚ) x]
  have h3 : ((1000 : ℤ) : ℚ) ≤ (round (max (1 / 10) x * 10 ^ 4) : ℚ) := by
    exact_mod_cast h2
  rw [le_div_iff (by norm_num : (0 : ℚ) < 10 ^ 4)]
  calc (1 / 10 : ℚ) * 10 ^ 4 = 1000 := by norm_num
    _ ≤ _ := h3

/-! ### Claim theorems -/

/-- C1: for every non-negative windowDays, the generated history has
exactly windowDays + 1 points; the point at index j has date equal to
today minus (windowDays - j) days; consecutive dates differ by exactly
one day (hence strictly ascending, no duplicates, no gaps); the first
date is today minus windowDays days and the last date is today. -/
theorem claim1_dates (u : ℕ → ℚ) (osc : ℤ → ℚ) (today days : ℤ) (h : 0 ≤ days) :
    ((generateMockHistoricalData u osc today days).length : ℤ) = days + 1 ∧
    (∀ (j : ℕ) (hj : j < (generateMockHistoricalData u osc today days).length),
      ((generateMockHistoricalData u osc today days).get ⟨j, hj⟩).date
        = today - (days - j)) ∧
    List.Chain' (fun p q : RatePoint => p.date + 1 = q.date)
      (generateMockHistoricalData u osc today days) ∧
    ((generateMockHistoricalData u osc today days).getD 0 default).date
      = today - days ∧
    ((generateMockHistoricalData u osc today days).getD
        ((generateMockHistoricalData u osc today days).length - 1) default).date
      = today := by
  have hlen := generateMockHistoricalData_length u osc today days h
  refine ⟨?_, ?_, ?_, ?_, ?_⟩
  · rw [hlen]
    push_cast [Int.toNat_of_nonneg h]
    ring
  · intro j hj
    rw [generateMockHistoricalData_get u osc today days h j hj]
  · rw [List.chain'_iff_get]
    intro i hi
    rw [generateMockHistoricalData_get u osc today days h i (by omega),
      generateMockHistoricalData_get u osc today days h (i + 1) (by omega)]
    push_cast
    ring
  · have h0 : 0 < (generateMockHistoricalData u osc today days).length := by omega
    rw [List.getD_eq_get _ _ h0,
      generateMockHistoricalData_get u osc today days h 0 h0]
    simp
  · have hl : (generateMockHistoricalData u osc today days).length - 1
        < (generateMockHistoricalData u osc today days).length := by omega
    rw [List.getD_eq_get _ _ hl,
      generateMockHistoricalData_get u osc today days h _ hl, hlen]
    have h1 : ((days.toNat + 1 - 1 : ℕ) : ℤ) = days := by
      simp [Int.toNat_of_nonneg h]
    simp only [h1]
    ring

theorem claim1_witness :
    ((generateMockHistoricalData (fun _ => 0) (fun _ => 0) 0 1).length : ℤ) = 1 + 1 ∧
    ((generateMockHistoricalData (fun _ => 0) (fun _ => 0) 0 1).getD
        ((generateMockHistoricalData (fun _ => 0) (fun _ => 0) 0 1).length - 1)
        default).date = 0 :=
  ⟨(claim1_dates (fun _ => 0) (fun _ => 0) 0 1 (by norm_num)).1,
   (claim1_dates (fun _ => 0) (fun _ => 0) 0 1 (by norm_num)).2.2.2.2⟩

/-- C2: the base rate, drawn once per call as 0.85 + draw * 0.3, lies in
the interval from 0.85 inclusive to 1.15 exclusive whenever every draw
lies in the unit interval; and the rate of the point at index j (loop
offset i = windowDays - j) equals the spec formula
max(0.1, baseRate + (osc i + draw - 0.5) * 0.05) rounded to 4 decimal
places, with a fresh draw u (j + 1) for that point.  The oscillation
term sin(i * 0.1) is the abstract parameter osc applied at i. -/
theorem claim2_rate_formula (u : ℕ → ℚ) (osc : ℤ → ℚ) (today days : ℤ)
    (h : 0 ≤ days) (hu : ∀ n, 0 ≤ u n ∧ u n < 1) :
    (85 / 100 ≤ 85 / 100 + u 0 * (3 / 10)
      ∧ 85 / 100 + u 0 * (3 / 10) < 115 / 100) ∧
    ∀ (j : ℕ) (hj : j < (generateMockHistoricalData u osc today days).length),
      ((generateMockHistoricalData u osc today days).get ⟨j, hj⟩).rate
        = specPointRate (85 / 100 + u 0 * (3 / 10)) (osc (days - j)) (u (j + 1)) := by
  obtain ⟨h0, h1⟩ := hu 0
  refine ⟨⟨by nlinarith, by nlinarith⟩, ?_⟩
  intro j hj
  rw [generateMockHistoricalData_get u osc today days h j hj]
  rfl

theorem claim2_witness :
    (85 / 100 ≤ 85 / 100 + (1 / 2 : ℚ) * (3 / 10) ∧
      85 / 100 + (1 / 2 : ℚ) * (3 / 10) < 115 / 100) ∧
    ((generateMockHistoricalData (fun _ => 1 / 2) (fun _ => 0) 0 0).getD 0 default).rate
      = specPointRate (85 / 100 + (1 / 2) * (3 / 10)) 0 (1 / 2) := by
  have h := claim2_rate_formula (fun _ => 1 / 2) (fun _ => 0) 0 0 le_rfl
    (fun n => by norm_num)
  have hlen : 0 < (generateMockHistoricalData (fun _ => 1 / 2) (fun _ => 0) 0 0).length := by
    rw [generateMockHistoricalData_length (fun _ => 1 / 2) (fun _ => 0) 0 0 le_rfl]
    omega
  refine ⟨h.1, ?_⟩
  rw [List.getD_eq_get _ _ hlen]
  exact h.2 0 hlen

/-- C3: on a history of at least 2 points with positive rates, the trend
direction is "up" exactly when the last rate exceeds the second-to-last,
"down" exactly when it is less, "neutral" when they are equal, and the
magnitude is abs((last - prev) / prev) * 100 rounded to 2 decimal
places; in particular rates 1.0 then 1.1 give up with magnitude 10, and
rates 1.0 then 0.9 give down with magnitude 10. -/
theorem claim3_trend (l : List RatePoint) (hlen : 2 ≤ l.length)
    (hpos : ∀ p ∈ l, 0 < p.rate) :
    ((calculateTrend l).trend = "up"
        ↔ (l.getD (l.length - 2) default).rate < (l.getD (l.length - 1) default).rate) ∧
    ((calculateTrend l).trend = "down"
        ↔ (l.getD (l.length - 1) default).rate < (l.getD (l.length - 2) default).rate) ∧
    ((l.getD (l.length - 1) default).rate = (l.getD (l.length - 2) default).rate
        → (calculateTrend l).trend = "neutral") ∧
    (calculateTrend l).percentage
      = toFixed 2 (|((l.getD (l.length - 1) default).rate
            - (l.getD (l.length - 2) default).rate)
          / (l.getD (l.length - 2) default).rate| * 100) ∧
    calculateTrend [{ date := 0, rate := 1 }, { date := 1, rate := 11 / 10 }]
      = { trend := "up", percentage := 10 } ∧
    calculateTrend [{ date := 0, rate := 1 }, { date := 1, rate := 9 / 10 }]
      = { trend := "down", percentage := 10 } := by
  have hprevlt : l.length - 2 < l.length := by omega
  set last := (l.getD (l.length - 1) default).rate with hlast_def
  set prev := (l.getD (l.length - 2) default).rate with hprev_def
  have hprev : 0 < prev := by
    rw [hprev_def, List.getD_eq_get _ _ hprevlt]
    exact hpos _ (l.get_mem _ _)
  have hct : calculateTrend l =
      { trend := if (last - prev) / prev * 100 > 0 then "up"
                 else if (last - prev) / prev * 100 < 0 then "down" else "neutral",
        percentage := toFixed 2 |(last - prev) / prev * 100| } := by
    simp only [calculateTrend, if_neg (not_lt.mpr hlen)]
  have hscale : (0 : ℚ) < 100 / prev := div_pos (by norm_num) hprev
  have hpos_iff : (last - prev) / prev * 100 > 0 ↔ prev < last := by
    rw [show (last - prev) / prev * 100 = (last - prev) * (100 / prev) by ring,
      gt_iff_lt, mul_pos_iff_of_pos_right hscale, sub_pos]
  have hneg_iff : (last - prev) / prev * 100 < 0 ↔ last < prev := by
    rw [show (last - prev) / prev * 100 = -((prev - last) * (100 / prev)) by ring,
      neg_lt_zero, mul_pos_iff_of_pos_right hscale, sub_pos]
  have htr : (calculateTrend l).trend
      = (if prev < last then "up" else if last < prev then "down" else "neutral") := by
    rw [hct]
    rcases lt_trichotomy prev last with h1 | h1 | h1
    · rw [if_pos (hpos_iff.mpr h1), if_pos h1]
    · have hc : (last - prev) / prev * 100 = 0 := by
        rw [h1, sub_self, zero_div, zero_mul]
      rw [hc]
      norm_num [h1]
    · rw [if_neg (by rw [hpos_iff]; exact not_lt.mpr (le_of_lt h1)),
        if_pos (hneg_iff.mpr h1), if_neg (not_lt.mpr (le_of_lt h1)), if_pos h1]
  have hud : ("up" : String) ≠ "down" := by decide
  have hun : ("up" : String) ≠ "neutral" := by decide
  have hdn : ("down" : String) ≠ "neutral" := by decide
  refine ⟨?_, ?_, ?_, ?_,
    by norm_num [calculateTrend, toFixed, round_eq],
    by norm_num [calculateTrend, toFixed, round_eq]⟩
  · rw [htr]
    split_ifs with h1 h2
    · simp [h1]
    · simp [hud.symm, not_lt.mpr (le_of_lt h2)]
    · simp [hun.symm, h1]
  · rw [htr]
    split_ifs with h1 h2
    · simp [hud, not_lt.mpr (le_of_lt h1)]
    · simp [h2]
    · simp [hdn.symm, h2]
  · intro he
    rw [htr, if_neg (by rw [he]; exact lt_irrefl _),
      if_neg (by rw [he]; exact lt_irrefl _)]
  · rw [hct]
    show toFixed 2 |(last - prev) / prev * 100| = toFixed 2 (|(last - prev) / prev| * 100)
    congr 1
    rw [abs_mul]
    norm_num

theorem claim3_witness :
    ((calculateTrend [{ date := 0, rate := 1 }, { date := 1, rate := 11 / 10 }]).trend = "up"
      ↔ (1 : ℚ) < 11 / 10) ∧
    calculateTrend [{ date := 0, rate := 1 }, { date := 1, rate := 11 / 10 }]
      = { trend := "up", percentage := 10 } := by
  have h := claim3_trend [{ date := 0, rate := 1 }, { date := 1, rate := 11 / 10 }]
    (by norm_num) (by intro p hp; simp at hp; rcases hp with h | h <;> simp [h])
  refine ⟨?_, h.2.2.2.2.1⟩
  have h1 := h.1
  simpa using h1

/-- C4: every generated point has rate at least 0.1, the clamp floor,
and the rate times 10^4 is an integer (at most 4 decimal digits); and
the mock current exchange rate is positive for every non-negative
draw. -/
theorem claim4_rates_positive :
    (∀ (u : ℕ → ℚ) (osc : ℤ → ℚ) (today days : ℤ),
      ∀ p ∈ generateMockHistoricalData u osc today days,
        1 / 10 ≤ p.rate ∧ ∃ n : ℤ, p.rate = (n : ℚ) / 10 ^ 4) ∧
    ∀ v : ℚ, 0 ≤ v → 0 < mockRate v := by
  constructor
  · intro u osc today days p hp
    rcases lt_or_le days 0 with hd | hd
    · have he : generateMockHistoricalData u osc today days = [] := by
        simp [generateMockHistoricalData, if_pos hd]
      rw [he] at hp
      simp at hp
    · rw [generateMockHistoricalData_eq_map u osc today days hd] at hp
      simp only [List.mem_map, List.mem_range] at hp
      obtain ⟨j, hj, rfl⟩ := hp
      exact ⟨one_tenth_le_toFixed4_max _, ⟨_, rfl⟩⟩
  · intro v hv
    unfold mockRate
    nlinarith

theorem claim4_witness : (1 / 10 : ℚ) ≤ (33 / 40 : ℚ) ∧ 0 < mockRate 0 := by
  have hm : ({ date := 0, rate := 33 / 40 } : RatePoint)
      ∈ generateMockHistoricalData (fun _ => 0) (fun _ => 0) 0 0 := by
    norm_num [generateMockHistoricalData, toFixed, round_eq, List.range_succ]
  exact ⟨(claim4_rates_positive.1 (fun _ => 0) (fun _ => 0) 0 0 _ hm).1,
    claim4_rates_positive.2 0 le_rfl⟩

/-- C5: the mock current rate 0.5 + draw * 1.5 lies in the half-open
interval from 0.5 inclusive to 2.0 exclusive whenever the draw lies in
the unit interval. -/
theorem claim5_mockRate_range (v : ℚ) (h0 : 0 ≤ v) (h1 : v < 1) :
    1 / 2 ≤ mockRate v ∧ mockRate v < 2 := by
  unfold mockRate
  constructor <;> nlinarith

theorem claim5_witness : 1 / 2 ≤ mockRate 0 ∧ mockRate 0 < 2 :=
  claim5_mockRate_range 0 le_rfl (by norm_num)

/-- C6: the recomputed converted amount equals amount times rate exactly;
in particular amount 100 at rate 0.9 converts to exactly 90. -/
theorem claim6_convertedAmount :
    (∀ amount rate : ℚ, convertedAmount amount rate = amount * rate) ∧
    convertedAmount 100 (9 / 10) = 90 :=
  ⟨fun _ _ => rfl, by norm_num [convertedAmount]⟩

/-- C7: on any history with fewer than 2 points, calculateTrend returns
the neutral direction with zero magnitude and does not fail. -/
theorem claim7_trend_short (l : List RatePoint) (h : l.length < 2) :
    calculateTrend l = { trend := "neutral", percentage := 0 } := by
  simp [calculateTrend, if_pos h]

theorem claim7_witness :
    calculateTrend [] = { trend := "neutral", percentage := 0 } ∧
    calculateTrend [{ date := 0, rate := 1 }] = { trend := "neutral", percentage := 0 } :=
  ⟨claim7_trend_short [] (by norm_num), claim7_trend_short [⟨0, 1⟩] (by norm_num)⟩

/-- C8: the generator signals no error for any integer input: it returns
the empty sequence exactly when windowDays is negative and a non-empty
sequence for every non-negative windowDays. -/
theorem claim8_total (u : ℕ → ℚ) (osc : ℤ → ℚ) (today days : ℤ) :
    (generateMockHistoricalData u osc today days = [] ↔ days < 0) ∧
    (0 ≤ days → generateMockHistoricalData u osc today days ≠ []) := by
  have key : ∀ hd : 0 ≤ days, generateMockHistoricalData u osc today days ≠ [] := by
    intro hd he
    have := generateMockHistoricalData_length u osc today days hd
    rw [he] at this
    simp at this
  refine ⟨⟨?_, ?_⟩, key⟩
  · intro he
    by_contra hlt
    push_neg at hlt
    exact key hlt he
  · intro hd
    simp [generateMockHistoricalData, if_pos hd]

theorem claim8_witness :
    generateMockHistoricalData (fun _ => 0) (fun _ => 0) 0 (-1) = [] ∧
    generateMockHistoricalData (fun _ => 0) (fun _ => 0) 0 0 ≠ [] :=
  ⟨(claim8_total (fun _ => 0) (fun _ => 0) 0 (-1)).1.mpr (by norm_num),
   (claim8_total (fun _ => 0) (fun _ => 0) 0 0).2 le_rfl⟩

/-- C9: swapping exchanges the two currency fields only, and applying it
twice restores the original state. -/
theorem claim9_swap (s : ConversionState) :
    (handleSwapCurrencies s).fromCurrency = s.toCurrency ∧
    (handleSwapCurrencies s).toCurrency = s.fromCurrency ∧
    (handleSwapCurrencies s).amount = s.amount ∧
    (handleSwapCurrencies s).exchangeRate = s.exchangeRate ∧
    (handleSwapCurrencies s).convertedAmount = s.convertedAmount ∧
    (handleSwapCurrencies s).chartPeriod = s.chartPeriod ∧
    handleSwapCurrencies (handleSwapCurrencies s) = s :=
  ⟨rfl, rfl, rfl, rfl, rfl, rfl, rfl⟩

/-- C10: the period selector maps "7d" to 7 days, "30d" to 30 days and
every other value (including "90d") to 90 days, so the loaded history
always has length 8, 31 or 91. -/
theorem claim10_period (u : ℕ → ℚ) (osc : ℤ → ℚ) (today : ℤ) (p : String) :
    loadHistoricalDataDays "7d" = 7 ∧ loadHistoricalDataDays "30d" = 30 ∧
    loadHistoricalDataDays "90d" = 90 ∧
    (p ≠ "7d" → p ≠ "30d" → loadHistoricalDataDays p = 90) ∧
    ((loadHistoricalData u osc today p).length = 8 ∨
     (loadHistoricalData u osc today p).length = 31 ∨
     (loadHistoricalData u osc today p).length = 91) := by
  refine ⟨by decide, by decide, by decide, ?_, ?_⟩
  · intro h7 h30
    simp [loadHistoricalDataDays, h7, h30]
  · unfold loadHistoricalData loadHistoricalDataDays
    by_cases h7 : p = "7d"
    · left
      rw [if_pos h7, generateMockHistoricalData_length u osc today 7 (by norm_num)]
      rfl
    · rw [if_neg h7]
      by_cases h30 : p = "30d"
      · right; left
        rw [if_pos h30, generateMockHistoricalData_length u osc today 30 (by norm_num)]
        rfl
      · right; right
        rw [if_neg h30, generateMockHistoricalData_length u osc today 90 (by norm_num)]
        rfl

theorem claim10_witness : loadHistoricalDataDays "90d" = 90 :=
  (claim10_period (fun _ => 0) (fun _ => 0) 0 "90d").2.2.2.1 (by decide) (by decide)

end CurrencyConverter
